import Mathlib

/-! Shallow embedding of the GrantTreasury Soroban contract
(src/contracts/src/grantTreasury.rs).

Modelling choices: i128 values are modelled as Int (Soroban integer
arithmetic traps on overflow; the inputs used by the theorems below stay far
from the i128 bounds, so unbounded Int agrees with the source there), u64
ledger timestamps as Nat, and addresses as Nat. Rust division on i128
truncates toward zero, so every division of the source is embedded as
Int.tdiv. Each contract entry point becomes a function from the persisted
treasury state (together with the caller identity and the ledger timestamp
that the host supplies) to Except: a Rust panic is an error value, in which
case the whole transaction is rolled back, and success returns the updated
state. -/

deriving instance DecidableEq for Except

namespace GrantTreasury

/-- TreasuryConfig from grantTreasury.rs (admin, pool address, minimum
liquidity ratio in basis points, auto-invest threshold, yield claim
frequency). -/
structure TreasuryConfig where
  admin : Nat
  liquidity_pool_address : Nat
  min_liquidity_ratio : Nat
  auto_invest_threshold : Int
  yield_claim_frequency : Nat
deriving DecidableEq

/-- InvestmentPosition from grantTreasury.rs. -/
structure InvestmentPosition where
  amount : Int
  pool_address : Nat
  invested_at : Nat
  last_yield_claim : Nat
  accumulated_yield : Int
deriving DecidableEq

/-- AllocationStatus from grantTreasury.rs. -/
inductive AllocationStatus where
  | Pending
  | Approved
  | Disbursed
  | Expired
deriving DecidableEq

/-- GrantAllocation from grantTreasury.rs. -/
structure GrantAllocation where
  grantee : Nat
  amount : Int
  allocated_at : Nat
  status : AllocationStatus
deriving DecidableEq

/-- YieldRecord from grantTreasury.rs. -/
structure YieldRecord where
  amount : Int
  claimed_at : Nat
  pool_address : Nat
  apy : Nat
deriving DecidableEq

/-- The panics of grantTreasury.rs, one error value per distinct panic site
(names follow the error taxonomy of the specification, section 7; the
source has no LiquidityUnavailable panic at all). -/
inductive TreasuryError where
  | Unauthorized
  | InvalidAmount
  | InsufficientBalance
  | LiquidityBreach
  | InvalidIndex
  | ExceedsPrincipal
  | InvalidAllocationId
  | InvalidState
deriving DecidableEq

/-- The instance storage of the contract: the config singleton, the three
balance integers, the position list, the allocation list, the yield record
list and the claim bookkeeping fields, exactly the DataKey entries of the
source. -/
structure TreasuryState where
  config : TreasuryConfig
  total_balance : Int
  invested_balance : Int
  available_balance : Int
  positions : List InvestmentPosition
  allocations : List GrantAllocation
  yield_history : List YieldRecord
  last_yield_claim : Nat
  yield_claim_counter : Nat
deriving DecidableEq

/-- initialize: builds the fresh treasury state (all balances zero, all
lists empty), as the storage writes of the source initializer. -/
def initialize_treasury (admin liquidity_pool_address : Nat)
    (min_liquidity_ratio : Nat) (auto_invest_threshold : Int)
    (yield_claim_frequency : Nat) : TreasuryState :=
  { config :=
      { admin := admin
        liquidity_pool_address := liquidity_pool_address
        min_liquidity_ratio := min_liquidity_ratio
        auto_invest_threshold := auto_invest_threshold
        yield_claim_frequency := yield_claim_frequency }
    total_balance := 0
    invested_balance := 0
    available_balance := 0
    positions := []
    allocations := []
    yield_history := []
    last_yield_claim := 0
    yield_claim_counter := 0 }

/-- calculate_yield of the source: elapsed time since the last yield claim
of the position, zero yield at zero elapsed time, otherwise a two-stage
truncating division with a 500 bps rate. The u64 subtraction of the source
is Nat subtraction here; the callers below only use it with a timestamp at
or after last_yield_claim, where the two agree. -/
def calculate_yield (now : Nat) (position : InvestmentPosition) : Int :=
  let time_elapsed : Nat := now - position.last_yield_claim
  let apy : Int := 500
  let seconds_per_year : Int := 365 * 24 * 60 * 60
  if time_elapsed = 0 then 0
  else
    let time_fraction : Int := ((time_elapsed : Int) * 10000).tdiv seconds_per_year
    (position.amount * apy * time_fraction).tdiv (10000 * 10000)

/-- The helper total_balance of the source (reads the TotalBalance storage
key). -/
def total_balance_of (s : TreasuryState) : Int :=
  s.total_balance

/-- invest_idle_funds: admin-only, positive amount, amount at most the
available balance, and the post-investment available balance must not drop
below total * min_liquidity_ratio / 10000; on success a new position is
appended and the balances move from available to invested. -/
def invest_idle_funds (s : TreasuryState) (caller : Nat) (amount : Int)
    (now : Nat) : Except TreasuryError TreasuryState :=
  if caller ≠ s.config.admin then .error .Unauthorized
  else if amount ≤ 0 then .error .InvalidAmount
  else if amount > s.available_balance then .error .InsufficientBalance
  else if s.available_balance - amount <
      (total_balance_of s * (s.config.min_liquidity_ratio : Int)).tdiv 10000 then
    .error .LiquidityBreach
  else
    .ok { s with
      positions := s.positions ++
        [{ amount := amount
           pool_address := s.config.liquidity_pool_address
           invested_at := now
           last_yield_claim := now
           accumulated_yield := 0 }]
      invested_balance := s.invested_balance + amount
      available_balance := s.available_balance - amount }

/-- auto_invest_idle_funds: when the available balance has reached the
threshold, invests half of it (truncating division) on behalf of the admin
via invest_idle_funds. -/
def auto_invest_idle_funds (s : TreasuryState) (now : Nat) :
    Except TreasuryError TreasuryState :=
  if s.config.auto_invest_threshold ≤ s.available_balance then
    invest_idle_funds s s.config.admin (s.available_balance.tdiv 2) now
  else .ok s

/-- deposit: positive amount, credits total and available, then triggers
auto-investment when the new available balance reaches the threshold. A
panic inside the auto-invest call aborts the whole deposit transaction. -/
def deposit (s : TreasuryState) (depositor : Nat) (amount : Int) (now : Nat) :
    Except TreasuryError TreasuryState :=
  if amount ≤ 0 then .error .InvalidAmount
  else
    let s1 : TreasuryState :=
      { s with
        total_balance := s.total_balance + amount
        available_balance := s.available_balance + amount }
    if s1.config.auto_invest_threshold ≤ s1.available_balance then
      auto_invest_idle_funds s1 now
    else .ok s1

/-- divest_funds: admin-only, positive amount, valid position index, amount
at most the position principal. Settles yield on the position, reduces the
principal (removing the position when it reaches zero, which also discards
the freshly settled accumulated_yield together with the position), debits
invested by amount and credits available by amount plus the settled yield.
The TotalBalance key is never touched. -/
def divest_funds (s : TreasuryState) (caller : Nat) (amount : Int)
    (position_index : Nat) (now : Nat) : Except TreasuryError TreasuryState :=
  if caller ≠ s.config.admin then .error .Unauthorized
  else if amount ≤ 0 then .error .InvalidAmount
  else
    match s.positions[position_index]? with
    | none => .error .InvalidIndex
    | some position =>
      if amount > position.amount then .error .ExceedsPrincipal
      else
        .ok { s with
          positions :=
            if position.amount - amount = 0 then
              s.positions.eraseIdx position_index
            else
              s.positions.set position_index
                { position with
                  accumulated_yield :=
                    position.accumulated_yield + calculate_yield now position
                  amount := position.amount - amount }
          invested_balance := s.invested_balance - amount
          available_balance :=
            s.available_balance + amount + calculate_yield now position }

/-- One iteration of the position walk of ensure_liquidity: the state is
the pair of remaining_needed and positions_to_update. A position is kept
untouched once the need is covered; otherwise min(principal, remaining) is
divested, yield is settled, the remaining need is reduced by both, and the
position is kept (shrunk, with the yield added) only when it was not fully
drained. -/
def ensure_step (now : Nat) (acc : Int × List InvestmentPosition)
    (position : InvestmentPosition) : Int × List InvestmentPosition :=
  if acc.1 ≤ 0 then (acc.1, acc.2 ++ [position])
  else
    let divest_amount : Int := min position.amount acc.1
    let yield_amount : Int := calculate_yield now position
    let remaining : Int := acc.1 - (divest_amount + yield_amount)
    if divest_amount < position.amount then
      (remaining, acc.2 ++
        [{ position with
           amount := position.amount - divest_amount
           accumulated_yield := position.accumulated_yield + yield_amount }])
    else (remaining, acc.2)

/-- ensure_liquidity of the source: only acts when needed exceeds the
available balance; walks the positions with ensure_step, installs the
updated position list, debits invested by needed minus the remaining need,
and credits available by the full requested needed amount. It has no
failure path: it returns a state unconditionally, with no check that the
walk actually covered the need. -/
def ensure_liquidity (s : TreasuryState) (needed : Int) (now : Nat) :
    TreasuryState :=
  if 0 < needed ∧ s.available_balance < needed then
    let walk : Int × List InvestmentPosition :=
      s.positions.foldl (ensure_step now) (needed, [])
    { s with
      positions := walk.2
      invested_balance := s.invested_balance - (needed - walk.1)
      available_balance := s.available_balance + needed }
  else s

/-- allocate_grant: admin-only, positive amount. Reads the available
balance once; when the amount exceeds it, runs ensure_liquidity for the
difference; then appends an Approved allocation and writes back the STALE
local available balance minus amount (the source never re-reads the
available balance after ensure_liquidity). -/
def allocate_grant (s : TreasuryState) (caller grantee : Nat) (amount : Int)
    (now : Nat) : Except TreasuryError TreasuryState :=
  if caller ≠ s.config.admin then .error .Unauthorized
  else if amount ≤ 0 then .error .InvalidAmount
  else
    let available0 : Int := s.available_balance
    let s1 : TreasuryState :=
      if amount > available0 then ensure_liquidity s (amount - available0) now
      else s
    .ok { s1 with
      allocations := s1.allocations ++
        [{ grantee := grantee
           amount := amount
           allocated_at := now
           status := .Approved }]
      available_balance := available0 - amount }

/-- withdraw_grant: valid allocation id, caller must be the grantee of the
allocation, allocation must be Approved. Runs ensure_liquidity when the
allocation amount exceeds the available balance, marks the allocation
Disbursed, re-reads the available balance and debits it by the allocation
amount. -/
def withdraw_grant (s : TreasuryState) (grantee : Nat) (allocation_id : Nat)
    (now : Nat) : Except TreasuryError TreasuryState :=
  match s.allocations[allocation_id]? with
  | none => .error .InvalidAllocationId
  | some allocation =>
    if allocation.grantee ≠ grantee then .error .Unauthorized
    else if allocation.status ≠ .Approved then .error .InvalidState
    else
      let s1 : TreasuryState :=
        if allocation.amount > s.available_balance then
          ensure_liquidity s (allocation.amount - s.available_balance) now
        else s
      .ok { s1 with
        allocations := s1.allocations.set allocation_id
          { allocation with status := .Disbursed }
        available_balance := s1.available_balance - allocation.amount }

/-- The position walk of claim_yield: every position with positive settled
yield gets the yield added to accumulated_yield and its last_yield_claim
set to now, contributes a YieldRecord (500 bps) and adds to the running
total; positions with no yield are kept as they are. Returns the updated
positions, the new yield records in walk order, and the running total. -/
def claim_walk (now : Nat) :
    List InvestmentPosition → List InvestmentPosition × List YieldRecord × Int
  | [] => ([], [], 0)
  | position :: rest =>
    let y : Int := calculate_yield now position
    let tail := claim_walk now rest
    if 0 < y then
      ({ position with
         accumulated_yield := position.accumulated_yield + y
         last_yield_claim := now } :: tail.1,
       { amount := y
         claimed_at := now
         pool_address := position.pool_address
         apy := 500 } :: tail.2.1,
       y + tail.2.2)
    else (position :: tail.1, tail.2.1, tail.2.2)

/-- claim_yield: admin-only. Walks the positions with claim_walk, installs
the updated positions and appended yield records, credits ONLY the
available balance by the total settled yield (the TotalBalance key is not
written), stamps last_yield_claim and increments the claim counter. -/
def claim_yield (s : TreasuryState) (caller : Nat) (now : Nat) :
    Except TreasuryError TreasuryState :=
  if caller ≠ s.config.admin then .error .Unauthorized
  else
    let walk := claim_walk now s.positions
    .ok { s with
      positions := walk.1
      yield_history := s.yield_history ++ walk.2.1
      available_balance := s.available_balance + walk.2.2
      last_yield_claim := now
      yield_claim_counter := s.yield_claim_counter + 1 }

/-- get_accumulated_yield: the sum of accumulated_yield over the positions
currently in the store. -/
def get_accumulated_yield (s : TreasuryState) : Int :=
  (s.positions.map (fun p => p.accumulated_yield)).sum

/-- get_total_balance view. -/
def get_total_balance (s : TreasuryState) : Int :=
  s.total_balance

/-- get_available_balance view. -/
def get_available_balance (s : TreasuryState) : Int :=
  s.available_balance

/-- get_invested_balance view. -/
def get_invested_balance (s : TreasuryState) : Int :=
  s.invested_balance

end GrantTreasury

namespace GrantTreasury

/- Helper lemmas shared by several theorems below. -/

/-- Removing the element at a valid index from a list drops exactly its
contribution from the sum of f over the list. -/
theorem sum_map_eraseIdx {α : Type} (f : α → Int) :
    ∀ (l : List α) (i : Nat) (p : α), l[i]? = some p →
      ((l.eraseIdx i).map f).sum = (l.map f).sum - f p
  | [], i, p, h => by simp at h
  | a :: l, 0, p, h => by
    simp only [List.getElem?_cons_zero, Option.some.injEq] at h
    subst h
    simp [List.eraseIdx]
  | a :: l, i + 1, p, h => by
    simp only [List.getElem?_cons_succ] at h
    simp only [List.eraseIdx, List.map_cons, List.sum_cons]
    rw [sum_map_eraseIdx f l i p h]
    ring

/-- Inversion of a successful divest_funds call: the caller was the admin,
the amount was positive and within the principal of the addressed
position, and the resulting state is the record the source writes. -/
theorem divest_funds_ok_inv (s : TreasuryState) (caller : Nat) (amount : Int)
    (position_index now : Nat) (s' : TreasuryState)
    (h : divest_funds s caller amount position_index now = .ok s') :
    caller = s.config.admin ∧ 0 < amount ∧
    ∃ p, s.positions[position_index]? = some p ∧ amount ≤ p.amount ∧
      s' = { s with
        positions :=
          if p.amount - amount = 0 then s.positions.eraseIdx position_index
          else s.positions.set position_index
            { p with
              accumulated_yield := p.accumulated_yield + calculate_yield now p
              amount := p.amount - amount }
        invested_balance := s.invested_balance - amount
        available_balance :=
          s.available_balance + amount + calculate_yield now p } := by
  unfold divest_funds at h
  split at h
  · exact Except.noConfusion h
  · split at h
    · exact Except.noConfusion h
    · split at h
      · exact Except.noConfusion h
      · split at h
        · exact Except.noConfusion h
        · rename_i hcal hamt hopt position heq hgt
          injection h with h
          exact ⟨not_not.mp hcal, not_le.mp hamt, position, heq, not_lt.mp hgt, h.symm⟩

end GrantTreasury

namespace GrantTreasury

/- Concrete states used by the closed theorems and witnesses below. They
are the states produced by short call sequences from a fresh treasury
(admin 0, pool 1, ratio 0 bps, auto-invest threshold 1000000, frequency 0),
checked against the operations by decidable evaluation where used. -/

/-- A freshly initialized treasury with a liquidity ratio of 0 bps and an
auto-invest threshold high enough never to trigger. -/
def base_treasury : TreasuryState := initialize_treasury 0 1 0 1000000 0

/-- The position created by invest_idle_funds for 500 at time 0. -/
def pos500 : InvestmentPosition :=
  { amount := 500, pool_address := 1, invested_at := 0, last_yield_claim := 0
    accumulated_yield := 0 }

/-- The treasury after deposit(1000) and invest_idle_funds(500), both at
time 0. -/
def invested_treasury : TreasuryState :=
  { base_treasury with
    total_balance := 1000
    invested_balance := 500
    available_balance := 500
    positions := [pos500] }

/-- The state a full divest of pos500 at time 31536000 produces: the
position is gone and available was credited 500 + 25 of settled yield. -/
def full_divest_result : TreasuryState :=
  { invested_treasury with
    positions := []
    invested_balance := 0
    available_balance := 1025 }

/-- The state a partial divest of 200 from pos500 at time 31536000
produces: the position keeps principal 300 and carries the settled yield
25 in accumulated_yield. -/
def partial_divest_result : TreasuryState :=
  { invested_treasury with
    positions := [{ amount := 300, pool_address := 1, invested_at := 0
                    last_yield_claim := 0, accumulated_yield := 25 }]
    invested_balance := 300
    available_balance := 725 }

/-- Sanity: the two scenario states are reachable by the operations from
the fresh treasury. -/
theorem invested_treasury_reachable :
    (do
      let s1 ← deposit base_treasury 5 1000 0
      invest_idle_funds s1 0 500 0 : Except TreasuryError TreasuryState) =
      .ok invested_treasury := by decide

/-- C10: every successful divest_funds call leaves the total balance
unchanged, even though it credits amount plus the settled yield to
available and debits invested by amount. -/
theorem divest_funds_preserves_total (s : TreasuryState) (caller : Nat)
    (amount : Int) (position_index now : Nat) (s' : TreasuryState)
    (h : divest_funds s caller amount position_index now = .ok s') :
    s'.total_balance = s.total_balance := by
  obtain ⟨-, -, p, -, -, hs'⟩ :=
    divest_funds_ok_inv s caller amount position_index now s' h
  subst hs'
  rfl

/-- Witness for divest_funds_preserves_total: the partial divest of 200
from invested_treasury succeeds and keeps total_balance at 1000. -/
theorem divest_funds_preserves_total_witness :
    divest_funds invested_treasury 0 200 0 31536000 = .ok partial_divest_result ∧
    partial_divest_result.total_balance = invested_treasury.total_balance :=
  ⟨by decide,
    divest_funds_preserves_total invested_treasury 0 200 0 31536000
      partial_divest_result (by decide)⟩

/-- C9: get_accumulated_yield sums accumulated_yield over open positions
only, so when divest_funds fully divests a position, that position and its
accumulated yield (including the yield settled in that same call) drop out
of the sum: the result is the old sum minus the accumulated yield the
position had before the call. -/
theorem full_divest_drops_accumulated_yield (s : TreasuryState)
    (caller position_index now : Nat) (p : InvestmentPosition)
    (s' : TreasuryState)
    (hp : s.positions[position_index]? = some p)
    (h : divest_funds s caller p.amount position_index now = .ok s') :
    get_accumulated_yield s' = get_accumulated_yield s - p.accumulated_yield := by
  obtain ⟨-, -, q, hq, -, hs'⟩ :=
    divest_funds_ok_inv s caller p.amount position_index now s' h
  rw [hp] at hq
  obtain rfl : p = q := Option.some.inj hq
  subst hs'
  unfold get_accumulated_yield
  simp only [sub_self, if_pos]
  exact sum_map_eraseIdx (fun r => r.accumulated_yield) s.positions position_index p hp

/-- Witness for full_divest_drops_accumulated_yield: fully divesting
pos500 from invested_treasury at time 31536000 succeeds, removes the
position, and get_accumulated_yield drops by its accumulated yield even
though 25 of yield was settled in the call. -/
theorem full_divest_drops_accumulated_yield_witness :
    invested_treasury.positions[0]? = some pos500 ∧
    divest_funds invested_treasury 0 pos500.amount 0 31536000 =
      .ok full_divest_result ∧
    get_accumulated_yield full_divest_result =
      get_accumulated_yield invested_treasury - pos500.accumulated_yield :=
  ⟨by decide, by decide,
    full_divest_drops_accumulated_yield invested_treasury 0 0 31536000 pos500
      full_divest_result (by decide) (by decide)⟩

end GrantTreasury

namespace GrantTreasury

/-- The treasury of Scenario D of the spec: ratio 5000 bps, total 2000 all
available (the state after initialize and deposit(2000)). -/
def scenario_d_treasury : TreasuryState :=
  { config := { admin := 0, liquidity_pool_address := 1
                min_liquidity_ratio := 5000
                auto_invest_threshold := 1000000, yield_claim_frequency := 0 }
    total_balance := 2000
    invested_balance := 0
    available_balance := 2000
    positions := []
    allocations := []
    yield_history := []
    last_yield_claim := 0
    yield_claim_counter := 0 }

/-- C6: confirmed. An admin invest_idle_funds call with 0 < amount ≤
available fails with LiquidityBreach exactly when available - amount <
total * min_liquidity_ratio / 10000 (truncating integer division), and
every successful call leaves available at or above that minimum (total and
the ratio are unchanged by the call). -/
theorem invest_idle_funds_liquidity_law (s : TreasuryState) (caller : Nat)
    (amount : Int) (now : Nat)
    (hadmin : caller = s.config.admin) (hpos : 0 < amount)
    (hle : amount ≤ s.available_balance) :
    (invest_idle_funds s caller amount now = .error .LiquidityBreach ↔
      s.available_balance - amount <
        (s.total_balance * (s.config.min_liquidity_ratio : Int)).tdiv 10000) ∧
    ∀ s', invest_idle_funds s caller amount now = .ok s' →
      (s'.total_balance * (s'.config.min_liquidity_ratio : Int)).tdiv 10000 ≤
        s'.available_balance := by
  unfold invest_idle_funds total_balance_of
  rw [if_neg (not_ne_iff.mpr hadmin), if_neg (not_le.mpr hpos),
    if_neg (not_lt.mpr hle)]
  by_cases hbreach : s.available_balance - amount <
      (s.total_balance * (s.config.min_liquidity_ratio : Int)).tdiv 10000
  · rw [if_pos hbreach]
    exact ⟨⟨fun _ => hbreach, fun _ => rfl⟩, fun s' hs' => Except.noConfusion hs'⟩
  · rw [if_neg hbreach]
    refine ⟨⟨fun h => Except.noConfusion h, fun h => absurd h hbreach⟩,
      fun s' hs' => ?_⟩
    injection hs' with hs'
    subst hs'
    exact not_lt.mp hbreach

/-- Witness for invest_idle_funds_liquidity_law at Scenario D of the spec:
investing 1500 out of 2000 with a 5000 bps ratio must breach (500 < 1000),
and the law instantiates there. -/
theorem invest_idle_funds_liquidity_law_witness :
    (0 = scenario_d_treasury.config.admin ∧ (0 : Int) < 1500 ∧
      (1500 : Int) ≤ scenario_d_treasury.available_balance) ∧
    ((invest_idle_funds scenario_d_treasury 0 1500 0 =
        .error .LiquidityBreach ↔
      scenario_d_treasury.available_balance - 1500 <
        (scenario_d_treasury.total_balance *
          (scenario_d_treasury.config.min_liquidity_ratio : Int)).tdiv 10000) ∧
    ∀ s', invest_idle_funds scenario_d_treasury 0 1500 0 = .ok s' →
      (s'.total_balance * (s'.config.min_liquidity_ratio : Int)).tdiv 10000 ≤
        s'.available_balance) :=
  ⟨⟨rfl, by decide, by decide⟩,
    invest_idle_funds_liquidity_law scenario_d_treasury 0 1500 0 rfl
      (by decide) (by decide)⟩

/-- A treasury initialized with ratio 6000 bps and auto-invest threshold
100, before any deposit. -/
def tight_treasury : TreasuryState := initialize_treasury 0 1 6000 100 0

/-- C7 counterexample: an authorized deposit of 100 into tight_treasury
reaches the auto-invest threshold, the triggered half-of-available
investment (50) fails the minimum-liquidity check (50 < 60), and the
whole deposit call FAILS with LiquidityBreach instead of silently
skipping auto-invest. -/
theorem deposit_aborted_by_auto_invest :
    deposit tight_treasury 5 100 0 = .error .LiquidityBreach := by decide

/-- C7 amended: when a deposit with amount > 0 pushes available to the
auto-invest threshold and the triggered half-of-available investment
fails, the deposit call fails with that same error (auto-invest does not
skip; nothing is committed). -/
theorem deposit_propagates_auto_invest_error (s : TreasuryState)
    (depositor : Nat) (amount : Int) (now : Nat) (e : TreasuryError)
    (hpos : 0 < amount)
    (htrig : s.config.auto_invest_threshold ≤ s.available_balance + amount)
    (hfail : invest_idle_funds
        { s with
          total_balance := s.total_balance + amount
          available_balance := s.available_balance + amount }
        s.config.admin ((s.available_balance + amount).tdiv 2) now =
        .error e) :
    deposit s depositor amount now = .error e := by
  simp only [deposit, auto_invest_idle_funds]
  rw [if_neg (not_le.mpr hpos), if_pos htrig, if_pos htrig]
  exact hfail

/-- Witness for deposit_propagates_auto_invest_error at the
tight_treasury counterexample input. -/
theorem deposit_propagates_auto_invest_error_witness :
    ((0 : Int) < 100 ∧
      tight_treasury.config.auto_invest_threshold ≤
        tight_treasury.available_balance + 100 ∧
      invest_idle_funds
        { tight_treasury with
          total_balance := tight_treasury.total_balance + 100
          available_balance := tight_treasury.available_balance + 100 }
        tight_treasury.config.admin
        ((tight_treasury.available_balance + 100).tdiv 2) 0 =
        .error .LiquidityBreach) ∧
    deposit tight_treasury 5 100 0 = .error .LiquidityBreach :=
  ⟨⟨by decide, by decide, by decide⟩,
    deposit_propagates_auto_invest_error tight_treasury 5 100 0
      .LiquidityBreach (by decide) (by decide) (by decide)⟩

/-- A position with a large principal and no prior yield settlement. -/
def big_position : InvestmentPosition :=
  { amount := 1000000000, pool_address := 0, invested_at := 0
    last_yield_claim := 0, accumulated_yield := 0 }

/-- C8 counterexample: at elapsed = 3153 seconds the source computes
yield 0 for a principal of 10^9 (the inner division (3153 * 10000) /
31536000 truncates to 0), while the single-division formula of the claim
gives 4999: calculate_yield is NOT the single rounding-down division the
claim states. -/
theorem calculate_yield_not_single_division :
    calculate_yield 3153 big_position = 0 ∧
    (big_position.amount * 500 * 3153).tdiv ((365 * 24 * 60 * 60) * 10000) =
      4999 ∧
    (0 : Int) ≠ 4999 := by decide

/-- C8 amended: for now ≥ last_yield_settled_at and non-negative
principal, calculate_yield returns 0 at elapsed = 0 and otherwise the
TWO-stage truncating division (principal * 500 * ((elapsed * 10000) tdiv
seconds_per_year)) tdiv 10^8; its value never exceeds the single-division
value floor(principal * 500 * elapsed / (seconds_per_year * 10000)). -/
theorem calculate_yield_two_stage (p : InvestmentPosition) (now : Nat)
    (hle : p.last_yield_claim ≤ now) (hamt : 0 ≤ p.amount) :
    (now - p.last_yield_claim = 0 → calculate_yield now p = 0) ∧
    (now - p.last_yield_claim ≠ 0 →
      calculate_yield now p =
        (p.amount * 500 *
          (((now - p.last_yield_claim : Nat) : Int) * 10000).tdiv
            31536000).tdiv 100000000) ∧
    calculate_yield now p ≤
      (p.amount * 500 * ((now : Int) - (p.last_yield_claim : Int))).tdiv
        (31536000 * 10000) := by
  refine ⟨fun h => by simp [calculate_yield, h], fun h => by
    simp only [calculate_yield]
    rw [if_neg h]
    norm_num, ?_⟩
  rcases Nat.eq_zero_or_pos (now - p.last_yield_claim) with h0 | hpos
  · have hnow : now = p.last_yield_claim :=
      Nat.le_antisymm (Nat.sub_eq_zero_iff_le.mp h0) hle
    simp [calculate_yield, h0, hnow]
  · have hne : now - p.last_yield_claim ≠ 0 := hpos.ne'
    simp only [calculate_yield]
    rw [if_neg hne]
    rw [show (now : Int) - (p.last_yield_claim : Int) =
        ((now - p.last_yield_claim : Nat) : Int) from (Nat.cast_sub hle).symm]
    set eI : Int := ((now - p.last_yield_claim : Nat) : Int) with heI
    have heInn : 0 ≤ eI := Int.natCast_nonneg _
    set P : Int := p.amount * 500 with hP
    have hPnn : 0 ≤ P := by positivity
    show (P * (eI * 10000).tdiv (365 * 24 * 60 * 60)).tdiv (10000 * 10000) ≤
      (P * eI).tdiv (31536000 * 10000)
    have htf : (eI * 10000).tdiv (365 * 24 * 60 * 60) =
        (eI * 10000) / 31536000 := by
      rw [Int.tdiv_eq_ediv (by positivity) (by norm_num)]
      norm_num
    rw [htf]
    have htfnn : 0 ≤ (eI * 10000) / 31536000 :=
      Int.ediv_nonneg (by positivity) (by norm_num)
    rw [Int.tdiv_eq_ediv (by positivity) (by norm_num),
      Int.tdiv_eq_ediv (by positivity) (by norm_num)]
    set tf : Int := (eI * 10000) / 31536000 with htfdef
    rw [Int.le_ediv_iff_mul_le (by norm_num : (0 : Int) < 31536000 * 10000)]
    have h1 : 31536000 * tf ≤ eI * 10000 := by
      have hdm := Int.ediv_add_emod (eI * 10000) 31536000
      have hmn := Int.emod_nonneg (eI * 10000)
        (by norm_num : (31536000 : Int) ≠ 0)
      rw [htfdef]
      linarith
    have h2 : 10000 * 10000 * (P * tf / (10000 * 10000)) ≤ P * tf := by
      have hdm := Int.ediv_add_emod (P * tf) (10000 * 10000)
      have hmn := Int.emod_nonneg (P * tf)
        (by norm_num : (10000 * 10000 : Int) ≠ 0)
      linarith
    have h3 : 10000 * 10000 * (P * tf / (10000 * 10000)) * 31536000 ≤
        P * tf * 31536000 :=
      mul_le_mul_of_nonneg_right h2 (by norm_num)
    have h4 : P * (31536000 * tf) ≤ P * (eI * 10000) :=
      mul_le_mul_of_nonneg_left h1 hPnn
    have h5 : P * tf / (10000 * 10000) * (31536000 * 10000) * 10000 ≤
        P * eI * 10000 := by nlinarith [h3, h4]
    exact le_of_mul_le_mul_right h5 (by norm_num)

/-- Witness for calculate_yield_two_stage at big_position with
now = 3153. -/
theorem calculate_yield_two_stage_witness :
    (big_position.last_yield_claim ≤ 3153 ∧ (0 : Int) ≤ big_position.amount) ∧
    ((3153 - big_position.last_yield_claim = 0 →
        calculate_yield 3153 big_position = 0) ∧
      (3153 - big_position.last_yield_claim ≠ 0 →
        calculate_yield 3153 big_position =
          (big_position.amount * 500 *
            (((3153 - big_position.last_yield_claim : Nat) : Int) *
              10000).tdiv 31536000).tdiv 100000000) ∧
      calculate_yield 3153 big_position ≤
        (big_position.amount * 500 *
          ((3153 : Int) - (big_position.last_yield_claim : Int))).tdiv
          (31536000 * 10000)) :=
  ⟨⟨by decide, by decide⟩,
    calculate_yield_two_stage big_position 3153 (by decide) (by decide)⟩

end GrantTreasury

namespace GrantTreasury

/- Closed call sequences exhibiting the divergences between the source and
the specification design (sections 4 and 9 of the spec). -/

/-- deposit(1000), invest_idle_funds(500) at time 0, then claim_yield one
year later (31536000 seconds), all successful. -/
def claim_scenario : Except TreasuryError TreasuryState := do
  let s1 ← deposit base_treasury 5 1000 0
  let s2 ← invest_idle_funds s1 0 500 0
  claim_yield s2 0 31536000

/-- C1: refuted on the source. After the reachable sequence deposit(1000),
invest(500), claim_yield one year later, the settled yield 25 was credited
to available only, so total = 1000 while invested + available = 1025: the
balance identity total = invested + available does not hold in the source
(claim_yield does not credit total; the spec itself flags this in section
9). -/
theorem claim_yield_breaks_balance_identity :
    (claim_scenario.map fun s =>
      (s.total_balance, s.invested_balance, s.available_balance)) =
      .ok (1000, 500, 525) ∧
    (1000 : Int) ≠ 500 + 525 := by decide

/-- deposit(10), then allocate_grant of 15 while only 10 is available. -/
def overdraw_scenario : Except TreasuryError TreasuryState := do
  let s1 ← deposit base_treasury 5 10 0
  allocate_grant s1 0 2 15 0

/-- C2: refuted on the source. Starting from available = 10 (non-negative),
allocate_grant(15) succeeds: the internal ensure_liquidity call is a no-op
because needed = 5 does not exceed the available balance, and the final
debit writes the stale local balance 10 - 15 = -5, so a successful public
call leaves available negative. -/
theorem allocate_grant_drives_available_negative :
    ((deposit base_treasury 5 10 0).map fun s => s.available_balance) =
      .ok 10 ∧
    (overdraw_scenario.map fun s => s.available_balance) = .ok (-5) ∧
    (-5 : Int) < 0 := by decide

/-- C3: refuted on the source. With no open positions at all and needed =
5 > 0, ensure_liquidity cannot raise anything, yet it does not fail: it
returns a state crediting the full requested 5 to available (the
TreasuryError type of the source has no LiquidityUnavailable variant, and
ensure_liquidity has no error path). The caller allocate_grant therefore
proceeds successfully on phantom liquidity instead of propagating a
failure. -/
theorem ensure_liquidity_cannot_fail :
    ensure_liquidity base_treasury 5 0 =
      { base_treasury with available_balance := 5 } ∧
    (allocate_grant base_treasury 0 2 5 0).isOk = true ∧
    ((allocate_grant base_treasury 0 2 5 0).map fun s =>
      (s.available_balance, s.invested_balance, s.positions.length)) =
      .ok (-5, 0, 0) := by decide

/-- The treasury after deposit(10) and invest_idle_funds(10), both at time
0: total 10, invested 10, available 0, one position of principal 10. -/
def small_invested_treasury : TreasuryState :=
  { base_treasury with
    total_balance := 10
    invested_balance := 10
    available_balance := 0
    positions := [{ amount := 10, pool_address := 1, invested_at := 0
                    last_yield_claim := 0, accumulated_yield := 0 }] }

/-- C4: refuted on the source. In small_invested_treasury the walk of
ensure_liquidity(needed = 100) can raise only total_raised = 10 of
principal and total_yield = 0, yet the source credits available by the
full requested 100 (not by 10), drains the position list, and debits
invested by 10: the resulting available balance contains 90 of phantom
funds. The reachability of the start state is part of the statement. -/
theorem ensure_liquidity_credits_requested_amount :
    (do
      let s1 ← deposit base_treasury 5 10 0
      invest_idle_funds s1 0 10 0 : Except TreasuryError TreasuryState) =
      .ok small_invested_treasury ∧
    (ensure_liquidity small_invested_treasury 100 0).available_balance =
      small_invested_treasury.available_balance + 100 ∧
    (ensure_liquidity small_invested_treasury 100 0).invested_balance = 0 ∧
    (ensure_liquidity small_invested_treasury 100 0).positions = [] ∧
    (100 : Int) ≠ 10 + 0 := by decide

/-- deposit(100), allocate_grant(5) at time 0. -/
def granted_scenario : Except TreasuryError TreasuryState := do
  let s1 ← deposit base_treasury 5 100 0
  allocate_grant s1 0 2 5 0

/-- granted_scenario followed by the grantee withdrawing allocation 0. -/
def withdrawn_scenario : Except TreasuryError TreasuryState := do
  let s1 ← granted_scenario
  withdraw_grant s1 2 0 0

/-- C5: refuted on the source. After deposit(100) and allocate_grant(5)
the available balance is 95 (the grant was already debited at allocation
time), and withdraw_grant by the grantee does flip the allocation to
Disbursed, but it also debits available a second time, leaving 90 instead
of the unchanged 95 the claim states. -/
theorem withdraw_grant_debits_available_again :
    (granted_scenario.map fun s => s.available_balance) = .ok 95 ∧
    (withdrawn_scenario.map fun s =>
      (s.available_balance, s.allocations.map fun a => a.status)) =
      .ok (90, [.Disbursed]) ∧
    (90 : Int) ≠ 95 := by decide

end GrantTreasury
